import Mathlib

/-!
Shallow embedding of `src/common/src/comp/ability.rs` (ability catalog, gate,
compiler, loadout aggregation, classification) from the velor repository.

Numeric conventions: Rust `u32` is modelled as `Nat` (`u32` subtraction, which
panics on underflow in the source, is modelled by returning `none`; the
wrapping cast `u32 as i32` is modelled explicitly with `% 2 ^ 32`), `i32` as
`Int`, `f32` as `Rat`, `Duration` as `Nat` (milliseconds).  Fallible code
(panics) returns `Option`.
-/

/-- Durations in milliseconds (Rust `Duration`). -/
abbrev Duration := Nat

/-- Armor protection, as matched in `Loadout::get_damage_reduction`:
either a plain numeric protection value or invincibility. -/
inductive Protection where
  | Normal (value : Rat)
  | Invincible
deriving DecidableEq, Repr

/-- True on a protection flagged invincible. -/
def Protection.is_invincible : Protection → Bool
  | .Invincible => true
  | .Normal _ => false

/-- The closure `|protection| match protection { Normal(p) => Some(p),
Invincible => None }` of `Loadout::get_damage_reduction`, as a named
function. -/
def Protection.normal_value : Protection → Option Rat
  | .Normal value => some value
  | .Invincible => none

/-- Modelled from the spec: opaque projectile descriptor carried by ranged
entries; its contents are copied verbatim by the compiler and never inspected
by the components under verification. -/
structure Projectile where
  tag : Nat
deriving DecidableEq, Repr

/-- Modelled from the spec: opaque light-emitter descriptor attached to a
projectile; copied verbatim, never inspected. -/
structure LightEmitter where
  tag : Nat
deriving DecidableEq, Repr

/-- Modelled from the spec: opaque gravity descriptor attached to a
projectile; copied verbatim, never inspected. -/
structure Gravity where
  tag : Nat
deriving DecidableEq, Repr

/-- Modelled from the spec: body-kind classification of the entity.  The gate
only asks whether the body is humanoid-classified, so one humanoid case and a
non-humanoid case suffice. -/
inductive Body where
  | Humanoid
  | NonHumanoid (tag : Nat)
deriving DecidableEq, Repr

/-- The body classification test `Body::is_humanoid`. -/
def Body.is_humanoid : Body → Bool
  | .Humanoid => true
  | .NonHumanoid _ => false

/-- Modelled from the spec: the horizontal-velocity part of the physical
snapshot; `xy().magnitude_squared()` is the squared magnitude of the
horizontal components. -/
structure Vel where
  x : Rat
  y : Rat
  z : Rat
deriving DecidableEq, Repr

/-- The squared horizontal speed `vel.0.xy().magnitude_squared()`. -/
def Vel.xy_magnitude_squared (v : Vel) : Rat :=
  v.x * v.x + v.y * v.y

/-- Modelled from the spec: the physics portion of the per-tick snapshot
(on-ground flag). -/
structure PhysicsState where
  on_ground : Bool
deriving DecidableEq, Repr

/-- Modelled from the spec: the read-only physical snapshot handed to the
gate (`JoinData` in the source): on-ground flag, body classification,
velocity. -/
structure JoinData where
  physics : PhysicsState
  body : Body
  vel : Vel
deriving DecidableEq, Repr

/-- Reason tag passed to ledger mutations (only `Ability` is used here). -/
inductive EnergySource where
  | Ability
deriving DecidableEq, Repr

/-- Modelled from the spec: the resource ledger (energy pool) is a bounded
integer counter. -/
structure Energy where
  current : Int
  maximum : Int
deriving DecidableEq, Repr

/-- Modelled from the spec: `try_change_by(delta, reason)` fails if the
resulting value would leave the valid range `[0, maximum]`; success applies
the delta immediately (single atomic check-and-apply).  `Result<(), Error>`
is modelled as `Option Energy` (`some` = `Ok` with the mutated ledger). -/
def Energy.try_change_by (e : Energy) (delta : Int) (_reason : EnergySource) :
    Option Energy :=
  if 0 ≤ e.current + delta ∧ e.current + delta ≤ e.maximum then
    some { e with current := e.current + delta }
  else
    none

/-- Modelled from the spec: stage marker `Buildup | Action | Recovery` plus
charge-specific extension.  Only `Buildup` is produced by the compiler. -/
inductive StageSection where
  | Buildup
  | Action
  | Recover
  | Charge
deriving DecidableEq, Repr

/-- Modelled from the spec: one combo stage's tuning sub-record
(`combo_melee::Stage`); the components under verification only measure the
length of the stage list and copy it verbatim. -/
structure ComboStage where
  tag : Nat
deriving DecidableEq, Repr

/- ------------------------------------------------------------------ -/
/- Ability catalog (`CharacterAbility`), one record per enum variant.  -/
/- ------------------------------------------------------------------ -/

structure BasicMeleeEntry where
  energy_cost : Nat
  buildup_duration : Duration
  recover_duration : Duration
  base_healthchange : Int
  knockback : Rat
  range : Rat
  max_angle : Rat
deriving DecidableEq, Repr

structure BasicRangedEntry where
  energy_cost : Nat
  holdable : Bool
  prepare_duration : Duration
  recover_duration : Duration
  projectile : Projectile
  projectile_body : Body
  projectile_light : Option LightEmitter
  projectile_gravity : Option Gravity
  projectile_speed : Rat
deriving DecidableEq, Repr

structure BoostEntry where
  duration : Duration
  only_up : Bool
deriving DecidableEq, Repr

structure DashMeleeEntry where
  energy_cost : Nat
  base_damage : Nat
  max_damage : Nat
  base_knockback : Rat
  max_knockback : Rat
  range : Rat
  angle : Rat
  energy_drain : Nat
  forward_speed : Rat
  buildup_duration : Duration
  charge_duration : Duration
  swing_duration : Duration
  recover_duration : Duration
  infinite_charge : Bool
  is_interruptible : Bool
deriving DecidableEq, Repr

structure ComboMeleeEntry where
  stage_data : List ComboStage
  initial_energy_gain : Nat
  max_energy_gain : Nat
  energy_increase : Nat
  speed_increase : Rat
  max_speed_increase : Rat
  is_interruptible : Bool
deriving DecidableEq, Repr

structure LeapMeleeEntry where
  energy_cost : Nat
  movement_duration : Duration
  buildup_duration : Duration
  recover_duration : Duration
  leap_speed : Rat
  leap_vert_speed : Rat
  base_damage : Nat
  knockback : Rat
  range : Rat
deriving DecidableEq, Repr

structure SpinMeleeEntry where
  buildup_duration : Duration
  swing_duration : Duration
  recover_duration : Duration
  base_damage : Nat
  knockback : Rat
  range : Rat
  energy_cost : Nat
  is_infinite : Bool
  is_helicopter : Bool
  is_interruptible : Bool
  forward_speed : Rat
  num_spins : Nat
deriving DecidableEq, Repr

structure ChargedRangedEntry where
  energy_cost : Nat
  energy_drain : Nat
  initial_damage : Nat
  max_damage : Nat
  initial_knockback : Rat
  max_knockback : Rat
  prepare_duration : Duration
  charge_duration : Duration
  recover_duration : Duration
  projectile_body : Body
  projectile_light : Option LightEmitter
  projectile_gravity : Option Gravity
  initial_projectile_speed : Rat
  max_projectile_speed : Rat
deriving DecidableEq, Repr

structure GroundShockwaveEntry where
  energy_cost : Nat
  buildup_duration : Duration
  recover_duration : Duration
  damage : Nat
  knockback : Rat
  shockwave_angle : Rat
  shockwave_speed : Rat
  shockwave_duration : Duration
  requires_ground : Bool
deriving DecidableEq, Repr

/-- The ability catalog enum `CharacterAbility` of the source, one case per
variant with the fields gathered in a per-variant record. -/
inductive CharacterAbility where
  | BasicMelee (f : BasicMeleeEntry)
  | BasicRanged (f : BasicRangedEntry)
  | Boost (f : BoostEntry)
  | DashMelee (f : DashMeleeEntry)
  | BasicBlock
  | Roll
  | ComboMelee (f : ComboMeleeEntry)
  | LeapMelee (f : LeapMeleeEntry)
  | SpinMelee (f : SpinMeleeEntry)
  | ChargedRanged (f : ChargedRangedEntry)
  | GroundShockwave (f : GroundShockwaveEntry)
deriving DecidableEq, Repr

/- ------------------------------------------------------------------ -/
/- Gate: `CharacterAbility::requirements_paid`.                        -/
/- ------------------------------------------------------------------ -/

/-- The wrapping Rust cast `u32 as i32`, on the `Nat` model of `u32`:
values whose low 32 bits reach `2 ^ 31` come out negative. -/
def u32_as_i32 (n : Nat) : Int :=
  if n % 2 ^ 32 < 2 ^ 31 then ((n % 2 ^ 32 : Nat) : Int)
  else ((n % 2 ^ 32 : Nat) : Int) - 2 ^ 32

/-- Two's-complement `i32` negation: `-x` wraps back to `i32::MIN` at
`x = i32::MIN` (the source's debug builds panic at that one point instead;
no statement below relies on the value there). -/
def i32_neg (x : Int) : Int :=
  if x = -(2 ^ 31) then -(2 ^ 31) else -x

/-- One energy-debit arm of the gate:
`update.energy.try_change_by(-(energy_cost as i32), EnergySource::Ability).is_ok()`,
with the `u32 as i32` cast and the `i32` negation taken literally.  The
mutation of `update.energy` is threaded explicitly: the pair holds the
boolean result and the ledger afterwards. -/
def debitArm (energy_cost : Nat) (energy : Energy) : Bool × Energy :=
  match energy.try_change_by (i32_neg (u32_as_i32 energy_cost)) .Ability with
  | some e => (true, e)
  | none => (false, energy)

/-- The gate `CharacterAbility::requirements_paid`, translated from the
source.  Rust's
`&&` short-circuits, so in the `Roll` arm the ledger is only touched once the
three physical conditions hold. -/
def CharacterAbility.requirements_paid (a : CharacterAbility) (data : JoinData)
    (energy : Energy) : Bool × Energy :=
  match a with
  | .Roll =>
    if data.physics.on_ground && data.body.is_humanoid
        && decide (data.vel.xy_magnitude_squared > 1/2) then
      match energy.try_change_by (-220) .Ability with
      | some e => (true, e)
      | none => (false, energy)
    else
      (false, energy)
  | .DashMelee f => debitArm f.energy_cost energy
  | .BasicMelee f => debitArm f.energy_cost energy
  | .BasicRanged f => debitArm f.energy_cost energy
  | .LeapMelee f => debitArm f.energy_cost energy
  | .SpinMelee f => debitArm f.energy_cost energy
  | .ChargedRanged f => debitArm f.energy_cost energy
  | .GroundShockwave f => debitArm f.energy_cost energy
  | _ => (true, energy)

/-- The configured energy cost of the energy-gated combat variants (the seven
arms of `requirements_paid` that debit `energy_cost`); `none` for `Roll`
(fixed 220 debit, physically gated) and the free variants. -/
def CharacterAbility.energyGatedCost : CharacterAbility → Option Nat
  | .BasicMelee f => some f.energy_cost
  | .BasicRanged f => some f.energy_cost
  | .DashMelee f => some f.energy_cost
  | .LeapMelee f => some f.energy_cost
  | .SpinMelee f => some f.energy_cost
  | .ChargedRanged f => some f.energy_cost
  | .GroundShockwave f => some f.energy_cost
  | _ => none

/- ------------------------------------------------------------------ -/
/- Execution states (`CharacterState` and the per-variant `Data`).     -/
/- Field shapes are exactly those constructed by                      -/
/- `impl From<&CharacterAbility> for CharacterState` in the source.   -/
/- ------------------------------------------------------------------ -/

namespace basic_melee

structure Data where
  exhausted : Bool
  buildup_duration : Duration
  recover_duration : Duration
  base_healthchange : Int
  knockback : Rat
  range : Rat
  max_angle : Rat
deriving DecidableEq, Repr

end basic_melee

namespace basic_ranged

structure Data where
  exhausted : Bool
  prepare_timer : Duration
  holdable : Bool
  prepare_duration : Duration
  recover_duration : Duration
  projectile : Projectile
  projectile_body : Body
  projectile_light : Option LightEmitter
  projectile_gravity : Option Gravity
  projectile_speed : Rat
deriving DecidableEq, Repr

end basic_ranged

namespace boost

structure Data where
  duration : Duration
  only_up : Bool
deriving DecidableEq, Repr

end boost

namespace dash_melee

structure StaticData where
  base_damage : Nat
  max_damage : Nat
  base_knockback : Rat
  max_knockback : Rat
  range : Rat
  angle : Rat
  energy_drain : Nat
  forward_speed : Rat
  infinite_charge : Bool
  buildup_duration : Duration
  charge_duration : Duration
  swing_duration : Duration
  recover_duration : Duration
  is_interruptible : Bool
deriving DecidableEq, Repr

structure Data where
  static_data : StaticData
  end_charge : Bool
  timer : Duration
  stage_section : StageSection
  exhausted : Bool
deriving DecidableEq, Repr

end dash_melee

namespace roll

structure Data where
  remaining_duration : Duration
  was_wielded : Bool
deriving DecidableEq, Repr

end roll

namespace combo_melee

structure StaticData where
  num_stages : Nat
  stage_data : List ComboStage
  initial_energy_gain : Nat
  max_energy_gain : Nat
  energy_increase : Nat
  speed_increase : Rat
  max_speed_increase : Rat
  is_interruptible : Bool
deriving DecidableEq, Repr

structure Data where
  static_data : StaticData
  stage : Nat
  combo : Nat
  timer : Duration
  stage_section : StageSection
  next_stage : Bool
deriving DecidableEq, Repr

end combo_melee

namespace leap_melee

/- The source field `initialize` is a Lean keyword; it is embedded here under
the name `init_flag`. -/
structure Data where
  init_flag : Bool
  exhausted : Bool
  movement_duration : Duration
  buildup_duration : Duration
  recover_duration : Duration
  leap_speed : Rat
  leap_vert_speed : Rat
  base_damage : Nat
  knockback : Rat
  range : Rat
deriving DecidableEq, Repr

end leap_melee

namespace spin_melee

structure StaticData where
  buildup_duration : Duration
  swing_duration : Duration
  recover_duration : Duration
  base_damage : Nat
  knockback : Rat
  range : Rat
  energy_cost : Nat
  is_infinite : Bool
  is_helicopter : Bool
  is_interruptible : Bool
  forward_speed : Rat
  num_spins : Nat
deriving DecidableEq, Repr

structure Data where
  static_data : StaticData
  timer : Duration
  spins_remaining : Nat
  stage_section : StageSection
  exhausted : Bool
deriving DecidableEq, Repr

end spin_melee

namespace charged_ranged

structure Data where
  exhausted : Bool
  energy_drain : Nat
  initial_damage : Nat
  max_damage : Nat
  initial_knockback : Rat
  max_knockback : Rat
  prepare_duration : Duration
  charge_duration : Duration
  charge_timer : Duration
  recover_duration : Duration
  projectile_body : Body
  projectile_light : Option LightEmitter
  projectile_gravity : Option Gravity
  initial_projectile_speed : Rat
  max_projectile_speed : Rat
deriving DecidableEq, Repr

end charged_ranged

namespace ground_shockwave

structure Data where
  exhausted : Bool
  buildup_duration : Duration
  recover_duration : Duration
  damage : Nat
  knockback : Rat
  shockwave_angle : Rat
  shockwave_speed : Rat
  shockwave_duration : Duration
  requires_ground : Bool
deriving DecidableEq, Repr

end ground_shockwave

/-- The execution-state enum `CharacterState`.  Its definition lives outside
`src/`; modelled from the spec ("tagged variant mirroring the catalog cases")
with exactly the variants the source constructs or matches, plus `Idle`
standing for the remaining variants hit by the classification fallback. -/
inductive CharacterState where
  | Idle
  | BasicMelee (d : basic_melee.Data)
  | BasicRanged (d : basic_ranged.Data)
  | Boost (d : boost.Data)
  | DashMelee (d : dash_melee.Data)
  | BasicBlock
  | Roll (d : roll.Data)
  | ComboMelee (d : combo_melee.Data)
  | LeapMelee (d : leap_melee.Data)
  | SpinMelee (d : spin_melee.Data)
  | ChargedRanged (d : charged_ranged.Data)
  | GroundShockwave (d : ground_shockwave.Data)
deriving DecidableEq, Repr

/- ------------------------------------------------------------------ -/
/- Compiler: `impl From<&CharacterAbility> for CharacterState`.        -/
/- ------------------------------------------------------------------ -/

/-- The compiler `impl From<&CharacterAbility> for CharacterState`,
translated arm by arm.
The `SpinMelee` arm computes `spins_remaining: *num_spins - 1` on `u32`,
which underflows (panics in the source's debug builds) when `num_spins = 0`;
that panic is modelled by `none`.  Every other arm is total. -/
def CharacterState.from_ability (ability : CharacterAbility) :
    Option CharacterState :=
  match ability with
  | .BasicMelee f =>
    some (.BasicMelee {
      exhausted := false
      buildup_duration := f.buildup_duration
      recover_duration := f.recover_duration
      base_healthchange := f.base_healthchange
      knockback := f.knockback
      range := f.range
      max_angle := f.max_angle })
  | .BasicRanged f =>
    some (.BasicRanged {
      exhausted := false
      prepare_timer := 0
      holdable := f.holdable
      prepare_duration := f.prepare_duration
      recover_duration := f.recover_duration
      projectile := f.projectile
      projectile_body := f.projectile_body
      projectile_light := f.projectile_light
      projectile_gravity := f.projectile_gravity
      projectile_speed := f.projectile_speed })
  | .Boost f =>
    some (.Boost {
      duration := f.duration
      only_up := f.only_up })
  | .DashMelee f =>
    some (.DashMelee {
      static_data := {
        base_damage := f.base_damage
        max_damage := f.max_damage
        base_knockback := f.base_knockback
        max_knockback := f.max_knockback
        range := f.range
        angle := f.angle
        energy_drain := f.energy_drain
        forward_speed := f.forward_speed
        infinite_charge := f.infinite_charge
        buildup_duration := f.buildup_duration
        charge_duration := f.charge_duration
        swing_duration := f.swing_duration
        recover_duration := f.recover_duration
        is_interruptible := f.is_interruptible }
      end_charge := false
      timer := 0
      stage_section := .Buildup
      exhausted := false })
  | .BasicBlock => some .BasicBlock
  | .Roll =>
    some (.Roll {
      remaining_duration := 500
      was_wielded := false })
  | .ComboMelee f =>
    some (.ComboMelee {
      static_data := {
        num_stages := f.stage_data.length
        stage_data := f.stage_data
        initial_energy_gain := f.initial_energy_gain
        max_energy_gain := f.max_energy_gain
        energy_increase := f.energy_increase
        speed_increase := 1 - f.speed_increase
        max_speed_increase := f.max_speed_increase - 1
        is_interruptible := f.is_interruptible }
      stage := 1
      combo := 0
      timer := 0
      stage_section := .Buildup
      next_stage := false })
  | .LeapMelee f =>
    some (.LeapMelee {
      init_flag := true
      exhausted := false
      movement_duration := f.movement_duration
      buildup_duration := f.buildup_duration
      recover_duration := f.recover_duration
      leap_speed := f.leap_speed
      leap_vert_speed := f.leap_vert_speed
      base_damage := f.base_damage
      knockback := f.knockback
      range := f.range })
  | .SpinMelee f =>
    if f.num_spins = 0 then
      none
    else
      some (.SpinMelee {
        static_data := {
          buildup_duration := f.buildup_duration
          swing_duration := f.swing_duration
          recover_duration := f.recover_duration
          base_damage := f.base_damage
          knockback := f.knockback
          range := f.range
          energy_cost := f.energy_cost
          is_infinite := f.is_infinite
          is_helicopter := f.is_helicopter
          is_interruptible := f.is_interruptible
          forward_speed := f.forward_speed
          num_spins := f.num_spins }
        timer := 0
        spins_remaining := f.num_spins - 1
        stage_section := .Buildup
        exhausted := false })
  | .ChargedRanged f =>
    some (.ChargedRanged {
      exhausted := false
      energy_drain := f.energy_drain
      initial_damage := f.initial_damage
      max_damage := f.max_damage
      initial_knockback := f.initial_knockback
      max_knockback := f.max_knockback
      prepare_duration := f.prepare_duration
      charge_duration := f.charge_duration
      charge_timer := 0
      recover_duration := f.recover_duration
      projectile_body := f.projectile_body
      projectile_light := f.projectile_light
      projectile_gravity := f.projectile_gravity
      initial_projectile_speed := f.initial_projectile_speed
      max_projectile_speed := f.max_projectile_speed })
  | .GroundShockwave f =>
    some (.GroundShockwave {
      exhausted := false
      buildup_duration := f.buildup_duration
      recover_duration := f.recover_duration
      damage := f.damage
      knockback := f.knockback
      shockwave_angle := f.shockwave_angle
      shockwave_speed := f.shockwave_speed
      shockwave_duration := f.shockwave_duration
      requires_ground := f.requires_ground })

/- ------------------------------------------------------------------ -/
/- Classification: `impl From<&CharacterState> for CharacterAbilityType`. -/
/- ------------------------------------------------------------------ -/

/-- The ability-type tag enum `CharacterAbilityType`. -/
inductive CharacterAbilityType where
  | BasicMelee
  | BasicRanged
  | Boost
  | ChargedRanged
  | DashMelee
  | BasicBlock
  | ComboMelee (s : StageSection) (stage : Nat)
  | LeapMelee
  | SpinMelee
  | GroundShockwave
deriving DecidableEq, Repr

/-- The classification `impl From<&CharacterState> for CharacterAbilityType`,
translated arm by arm, including the wildcard fallback to `BasicMelee`. -/
def CharacterAbilityType.from_state : CharacterState → CharacterAbilityType
  | .BasicMelee _ => .BasicMelee
  | .BasicRanged _ => .BasicRanged
  | .Boost _ => .Boost
  | .DashMelee _ => .DashMelee
  | .BasicBlock => .BasicBlock
  | .LeapMelee _ => .LeapMelee
  | .ComboMelee d => .ComboMelee d.stage_section d.stage
  | .SpinMelee _ => .SpinMelee
  | .ChargedRanged _ => .ChargedRanged
  | .GroundShockwave _ => .ChargedRanged
  | _ => .BasicMelee

/- ------------------------------------------------------------------ -/
/- Items, `ItemConfig`, `Loadout`.                                     -/
/- ------------------------------------------------------------------ -/

/-- Modelled from the spec: a tool (weapon) carries a declared ability list,
returned by `tool.get_abilities()` and drained in order into the slots. -/
structure Tool where
  abilities : List CharacterAbility
deriving DecidableEq, Repr

/-- The declared ability list `tool.get_abilities()`. -/
def Tool.get_abilities (t : Tool) : List CharacterAbility :=
  t.abilities

/-- Modelled from the spec: item kinds relevant to this core — a weapon
(`Tool`), an armor piece carrying a protection value, or any other item
kind. -/
inductive ItemKind where
  | Tool (t : Tool)
  | Armor (protection : Protection)
  | Other (tag : Nat)
deriving DecidableEq, Repr

/-- The protection accessor `armor.get_protection()` (modelled directly on
the protection value the armor piece carries). -/
def ItemKind.armorProtection : ItemKind → Option Protection
  | .Armor p => some p
  | _ => none

/-- Modelled from the spec: an item, exposing its kind via `item.kind()`. -/
structure Item where
  kind : ItemKind
deriving DecidableEq, Repr

/-- A weapon item with its resolved ability slots (`ItemConfig`). -/
structure ItemConfig where
  item : Item
  ability1 : Option CharacterAbility
  ability2 : Option CharacterAbility
  ability3 : Option CharacterAbility
  ability4 : Option CharacterAbility
  ability5 : Option CharacterAbility
  block_ability : Option CharacterAbility
  dodge_ability : Option CharacterAbility
deriving DecidableEq, Repr

/-- The resolution `impl From<Item> for ItemConfig`.  The source drains the
tool's declared
ability list, filling slots 1..5 with its first five entries in order
(`ability_drain.next()` five times yields elements 0..4), and otherwise hits
`unimplemented!` — a panic, modelled by `none`. -/
def ItemConfig.from_item (item : Item) : Option ItemConfig :=
  match item.kind with
  | .Tool tool =>
    let abilities := tool.get_abilities
    some {
      item := item
      ability1 := abilities.get? 0
      ability2 := abilities.get? 1
      ability3 := abilities.get? 2
      ability4 := abilities.get? 3
      ability5 := abilities.get? 4
      block_ability := some .BasicBlock
      dodge_ability := some .Roll }
  | _ => none

/-- The equipment aggregator `Loadout`: two weapon configurations, utility
slots, and the armor
slots, in source declaration order. -/
structure Loadout where
  active_item : Option ItemConfig
  second_item : Option ItemConfig
  lantern : Option Item
  glider : Option Item
  shoulder : Option Item
  chest : Option Item
  belt : Option Item
  hand : Option Item
  pants : Option Item
  foot : Option Item
  back : Option Item
  ring : Option Item
  neck : Option Item
  head : Option Item
  tabard : Option Item
deriving DecidableEq, Repr

/-- The `arraygen`-generated `Loadout::get_armor`: the `#[in_array(get_armor)]`
fields, in declaration order. -/
def Loadout.get_armor (l : Loadout) : List (Option Item) :=
  [l.shoulder, l.chest, l.belt, l.hand, l.pants, l.foot, l.back, l.ring,
   l.neck, l.head, l.tabard]

/-- Rust's `Sum` for `Option<f32>`: `none` if any element is `none`,
otherwise the sum of the values. -/
def optionSum : List (Option Rat) → Option Rat
  | [] => some 0
  | none :: _ => none
  | some v :: xs => (optionSum xs).map (fun acc => v + acc)

/-- The derived accessor `Loadout::get_damage_reduction`, translated stage by
stage:
flatten the occupied armor slots, keep the armor-kind items' protection
values, map `Normal` to `some` and `Invincible` to `none`, sum as
`Option<f32>`, and finish with the match on the summed option. -/
def Loadout.get_damage_reduction (l : Loadout) : Rat :=
  let protection :=
    optionSum
      (((l.get_armor.filterMap id).filterMap
          (fun item => item.kind.armorProtection)).map
        Protection.normal_value)
  match protection with
  | some dr => dr / (60 + |dr|)
  | none => 1

/- ------------------------------------------------------------------ -/
/- Derived definitions used by the verification statements.            -/
/- ------------------------------------------------------------------ -/

/-- Damage reduction as the spec words it (refinement target for
`Loadout::get_damage_reduction`): any equipped armor piece with invincible
protection short-circuits the whole computation to `1`; otherwise the
reduction is `total_protection / (60 + |total_protection|)` where
`total_protection` sums the equipped armor pieces' normal protection
values. -/
def Loadout.damage_reduction_spec (l : Loadout) : Rat :=
  let ps := (l.get_armor.filterMap id).filterMap
    (fun item => item.kind.armorProtection)
  if ps.any Protection.is_invincible then 1
  else
    let total := (ps.filterMap Protection.normal_value).sum
    total / (60 + |total|)

/-- The compiled execution state's `stage_section` field, for the variants
whose `Data` record carries one (`DashMelee`, `ComboMelee`, `SpinMelee`);
`none` for the variants whose record has no such field. -/
def CharacterState.stage_field : CharacterState → Option StageSection
  | .DashMelee d => some d.stage_section
  | .ComboMelee d => some d.stage_section
  | .SpinMelee d => some d.stage_section
  | _ => none

/-- The catalog variants whose compiled state carries a `stage_section`
field. -/
def CharacterAbility.compiles_with_stage : CharacterAbility → Bool
  | .DashMelee _ => true
  | .ComboMelee _ => true
  | .SpinMelee _ => true
  | _ => false

/-- Guard against the one panic of the compiler: a `SpinMelee` entry must
have at least one spin for `num_spins - 1` not to underflow. -/
def CharacterAbility.spin_count_ok : CharacterAbility → Bool
  | .SpinMelee f => decide (1 ≤ f.num_spins)
  | _ => true

/- ------------------------------------------------------------------ -/
/- Concrete sample values (used by witnesses and counterexamples).     -/
/- ------------------------------------------------------------------ -/

def sampleBasicMelee : BasicMeleeEntry :=
  { energy_cost := 10
    buildup_duration := 200
    recover_duration := 100
    base_healthchange := -50
    knockback := 10
    range := 3
    max_angle := 60 }

def sampleJoinData : JoinData :=
  { physics := { on_ground := true }
    body := .Humanoid
    vel := { x := 1, y := 0, z := 0 } }

def groundlessJoinData : JoinData :=
  { physics := { on_ground := false }
    body := .Humanoid
    vel := { x := 1, y := 0, z := 0 } }

def energy50 : Energy := { current := 50, maximum := 100 }

def energy100 : Energy := { current := 100, maximum := 100 }

def spinEntryZero : SpinMeleeEntry :=
  { buildup_duration := 100
    swing_duration := 300
    recover_duration := 100
    base_damage := 10
    knockback := 0
    range := 3
    energy_cost := 100
    is_infinite := false
    is_helicopter := false
    is_interruptible := false
    forward_speed := 1
    num_spins := 0 }

def spinEntryOne : SpinMeleeEntry :=
  { spinEntryZero with num_spins := 1 }

def sampleTool : Tool :=
  { abilities := [CharacterAbility.Roll] }

def toolItem : Item := { kind := .Tool sampleTool }

def armorItem : Item := { kind := .Armor (.Normal 10) }

/-- A melee entry whose `u32` energy cost exceeds `2 ^ 31`, so
`*energy_cost as i32` wraps to `-294967296`. -/
def hugeCostMelee : BasicMeleeEntry :=
  { sampleBasicMelee with energy_cost := 4000000000 }

def energyEmpty : Energy := { current := 0, maximum := 300000000 }

def emptyLoadout : Loadout :=
  { active_item := none
    second_item := none
    lantern := none
    glider := none
    shoulder := none
    chest := none
    belt := none
    hand := none
    pants := none
    foot := none
    back := none
    ring := none
    neck := none
    head := none
    tabard := none }

/- ------------------------------------------------------------------ -/
/- Helper lemmas.                                                      -/
/- ------------------------------------------------------------------ -/

theorem try_change_by_some (e e2 : Energy) (delta : Int)
    (h : e.try_change_by delta .Ability = some e2) :
    e2.current = e.current + delta ∧ e2.maximum = e.maximum := by
  unfold Energy.try_change_by at h
  split at h
  · cases h
    exact ⟨rfl, rfl⟩
  · cases h

theorem i32_delta_of_small_cost (cost : Nat) (hc : cost < 2 ^ 31) :
    i32_neg (u32_as_i32 cost) = -(cost : Int) := by
  have hlt : cost < 2 ^ 32 := lt_trans hc (by norm_num)
  unfold u32_as_i32 i32_neg
  rw [Nat.mod_eq_of_lt hlt, if_pos hc, if_neg]
  intro habs
  have : (0 : Int) ≤ (cost : Int) := Int.ofNat_nonneg cost
  rw [habs] at this
  norm_num at this

theorem debitArm_spec (cost : Nat) (e : Energy) (hc : cost < 2 ^ 31) :
    ((debitArm cost e).1
        = (e.try_change_by (-(cost : Int)) .Ability).isSome)
      ∧ ((debitArm cost e).1 = true →
          (debitArm cost e).2.current = e.current - (cost : Int)
            ∧ (debitArm cost e).2.maximum = e.maximum)
      ∧ ((debitArm cost e).1 = false → (debitArm cost e).2 = e) := by
  unfold debitArm
  rw [i32_delta_of_small_cost cost hc]
  cases h : e.try_change_by (-(cost : Int)) .Ability with
  | none => simp
  | some e2 =>
    have h2 := try_change_by_some e e2 _ h
    refine ⟨by simp, fun _ => ⟨?_, h2.2⟩, fun hf => by simp at hf⟩
    show e2.current = e.current - (cost : Int)
    rw [h2.1]
    ring

/- ------------------------------------------------------------------ -/
/- Claim theorems.                                                     -/
/- ------------------------------------------------------------------ -/

/-- C1 counterexample: at a configured cost of `4000000000` (a value `u32`
admits, at least `2 ^ 31`), the cast `-(*energy_cost as i32)` wraps to the
positive delta `+294967296`: on a ledger at `0/300000000` — from which
debiting the configured cost would fail — the gate nevertheless returns
`true` and leaves the ledger credited to `294967296`, neither debited by
the configured cost nor unchanged. -/
theorem gate_large_cost_credits_ledger :
    (energyEmpty.try_change_by
          (-((4000000000 : Nat) : Int)) .Ability).isSome = false
      ∧ ((CharacterAbility.BasicMelee hugeCostMelee).requirements_paid
          sampleJoinData energyEmpty).1 = true
      ∧ ((CharacterAbility.BasicMelee hugeCostMelee).requirements_paid
          sampleJoinData energyEmpty).2.current = 294967296
      ∧ ¬(((CharacterAbility.BasicMelee hugeCostMelee).requirements_paid
            sampleJoinData energyEmpty).2.current
              = energyEmpty.current - ((4000000000 : Nat) : Int)
          ∨ ((CharacterAbility.BasicMelee hugeCostMelee).requirements_paid
              sampleJoinData energyEmpty).2 = energyEmpty) := by
  decide

/-- C1 (amended): for every energy-gated catalog variant (melee strike,
ranged shot, charged ranged shot, dash strike, leap strike, spin strike,
ground shockwave) whose configured energy cost is below `2 ^ 31` (so the
`u32 as i32` cast preserves it), the gate returns `true` exactly when
debiting the variant's configured energy cost from the ledger succeeds, and
the ledger ends either debited by exactly the configured cost (on `true`)
or unchanged (on `false`); no partial deduction occurs.  At costs of
`2 ^ 31` or more the cast wraps and the delta is no longer the negated
cost. -/
theorem gate_energy_gated_debits_exactly (a : CharacterAbility) (c : Nat)
    (data : JoinData) (e : Energy) (h : a.energyGatedCost = some c)
    (hc : c < 2 ^ 31) :
    ((a.requirements_paid data e).1
        = (e.try_change_by (-(c : Int)) .Ability).isSome)
      ∧ ((a.requirements_paid data e).1 = true →
          (a.requirements_paid data e).2.current = e.current - (c : Int)
            ∧ (a.requirements_paid data e).2.maximum = e.maximum)
      ∧ ((a.requirements_paid data e).1 = false →
          (a.requirements_paid data e).2 = e) := by
  cases a <;> simp only [CharacterAbility.energyGatedCost] at h <;>
    cases h <;> exact debitArm_spec _ e hc

/-- C1 witness: a melee strike costing 10 against a ledger at 50/100. -/
theorem gate_energy_gated_debits_exactly_witness :
    CharacterAbility.energyGatedCost (.BasicMelee sampleBasicMelee)
        = some 10
      ∧ (10 : Nat) < 2 ^ 31
      ∧ ((((CharacterAbility.BasicMelee sampleBasicMelee).requirements_paid
              sampleJoinData energy50).1
          = (energy50.try_change_by (-((10 : Nat) : Int)) .Ability).isSome)
        ∧ (((CharacterAbility.BasicMelee sampleBasicMelee).requirements_paid
              sampleJoinData energy50).1 = true →
            ((CharacterAbility.BasicMelee sampleBasicMelee).requirements_paid
              sampleJoinData energy50).2.current
                = energy50.current - ((10 : Nat) : Int)
              ∧ ((CharacterAbility.BasicMelee
                  sampleBasicMelee).requirements_paid
                  sampleJoinData energy50).2.maximum = energy50.maximum)
        ∧ (((CharacterAbility.BasicMelee sampleBasicMelee).requirements_paid
              sampleJoinData energy50).1 = false →
            ((CharacterAbility.BasicMelee sampleBasicMelee).requirements_paid
              sampleJoinData energy50).2 = energy50)) :=
  ⟨rfl, by norm_num,
   gate_energy_gated_debits_exactly (.BasicMelee sampleBasicMelee) 10
    sampleJoinData energy50 rfl (by norm_num)⟩

/-- C2: dodge-roll admission is `false` — with the ledger untouched —
whenever the on-ground flag is false, or the body is not
humanoid-classified, or the horizontal velocity's squared magnitude is
at most `0.5`, regardless of ledger sufficiency; when all three physical
conditions hold, admission returns `true` exactly when the fixed debit of
220 energy succeeds, the ledger ending debited by 220 on success and
unchanged on failure. -/
theorem gate_roll_admission (data : JoinData) (e : Energy) :
    ((data.physics.on_ground = false ∨ data.body.is_humanoid = false
        ∨ data.vel.xy_magnitude_squared ≤ 1/2) →
      CharacterAbility.Roll.requirements_paid data e = (false, e))
    ∧ (data.physics.on_ground = true → data.body.is_humanoid = true →
        data.vel.xy_magnitude_squared > 1/2 →
        ((CharacterAbility.Roll.requirements_paid data e).1
            = (e.try_change_by (-220) .Ability).isSome)
          ∧ ((CharacterAbility.Roll.requirements_paid data e).1 = true →
              (CharacterAbility.Roll.requirements_paid data e).2.current
                  = e.current - 220
                ∧ (CharacterAbility.Roll.requirements_paid data e).2.maximum
                  = e.maximum)
          ∧ ((CharacterAbility.Roll.requirements_paid data e).1 = false →
              (CharacterAbility.Roll.requirements_paid data e).2 = e)) := by
  constructor
  · intro h
    unfold CharacterAbility.requirements_paid
    have hcond : (data.physics.on_ground && data.body.is_humanoid
        && decide (data.vel.xy_magnitude_squared > 1/2)) = false := by
      rcases h with h | h | h
      · rw [h]
        simp
      · rw [h]
        simp
      · rw [decide_eq_false (not_lt.mpr h)]
        simp
    rw [hcond]
    rfl
  · intro h1 h2 h3
    have hcond : (data.physics.on_ground && data.body.is_humanoid
        && decide (data.vel.xy_magnitude_squared > 1/2)) = true := by
      rw [h1, h2, decide_eq_true h3]
      rfl
    have harm : CharacterAbility.Roll.requirements_paid data e
        = debitArm 220 e := by
      unfold CharacterAbility.requirements_paid debitArm
      rw [hcond]
      rfl
    rw [harm]
    exact debitArm_spec 220 e (by norm_num)

/-- C2 witness: with on-ground false and a full ledger, roll admission is
refused and the ledger is untouched. -/
theorem gate_roll_admission_witness :
    CharacterAbility.Roll.requirements_paid groundlessJoinData energy100
      = (false, energy100) :=
  (gate_roll_admission groundlessJoinData energy100).1 (Or.inl rfl)

/-- C10: the gate admits the `Boost` and `ComboMelee` variants
unconditionally with no ledger mutation, and neither variant carries an
energy-cost field (neither is energy-gated). -/
theorem gate_boost_combo_free (b : BoostEntry) (f : ComboMeleeEntry)
    (data : JoinData) (e : Energy) :
    (CharacterAbility.Boost b).requirements_paid data e = (true, e)
      ∧ (CharacterAbility.ComboMelee f).requirements_paid data e = (true, e)
      ∧ CharacterAbility.energyGatedCost (.Boost b) = none
      ∧ CharacterAbility.energyGatedCost (.ComboMelee f) = none :=
  ⟨rfl, rfl, rfl, rfl⟩

/-- C3 counterexample: compiling a spin-strike entry whose configured
`num_spins` is `0` does not produce an execution state — the
`spins_remaining: *num_spins - 1` initialization underflows `u32`
(a panic in the source's debug builds), so the compiler is not total over
every field value the types admit. -/
theorem compile_spin_zero_fails :
    CharacterState.from_ability (.SpinMelee spinEntryZero) = none := rfl

/-- C3 (amended): the compiler is a pure total function on every catalog
entry whose `SpinMelee` spin count is at least 1 (the only arm that can
fail); under that proviso compilation always produces an execution state. -/
theorem compile_total_of_spin_count_ok (a : CharacterAbility)
    (h : a.spin_count_ok = true) :
    (CharacterState.from_ability a).isSome = true := by
  cases a <;> simp [CharacterAbility.spin_count_ok] at h ⊢ <;>
    simp [CharacterState.from_ability]
  · intro hzero
    omega

/-- C3 witness: a spin-strike entry with one spin compiles. -/
theorem compile_total_of_spin_count_ok_witness :
    CharacterAbility.spin_count_ok (.SpinMelee spinEntryOne) = true
      ∧ (CharacterState.from_ability (.SpinMelee spinEntryOne)).isSome
          = true :=
  ⟨rfl, compile_total_of_spin_count_ok (.SpinMelee spinEntryOne) rfl⟩

/-- C6: compiling a multi-stage combo entry initializes the stage counter
to 1, derives the stage count as the length of the stage-data sequence,
stores `speed_increase` as `1 −` the configured value and
`max_speed_increase` as the configured value `− 1`, and starts the combo
counter, timer, and `next_stage` flag at their zero/default values. -/
theorem compile_combo_initialization (f : ComboMeleeEntry) :
    ∃ d : combo_melee.Data,
      CharacterState.from_ability (.ComboMelee f) = some (.ComboMelee d)
        ∧ d.stage = 1
        ∧ d.static_data.num_stages = f.stage_data.length
        ∧ d.static_data.speed_increase = 1 - f.speed_increase
        ∧ d.static_data.max_speed_increase = f.max_speed_increase - 1
        ∧ d.combo = 0
        ∧ d.timer = 0
        ∧ d.next_stage = false := by
  exact ⟨_, rfl, rfl, rfl, rfl, rfl, rfl, rfl, rfl⟩

/-- C9: the classification function maps both the `ChargedRanged` state and
the `GroundShockwave` state to the same ability-type tag
(`CharacterAbilityType.ChargedRanged`), so the two variants are not
distinguishable through this classification path. -/
theorem classification_collapses_shockwave (c : charged_ranged.Data)
    (g : ground_shockwave.Data) :
    CharacterAbilityType.from_state (.ChargedRanged c)
        = CharacterAbilityType.ChargedRanged
      ∧ CharacterAbilityType.from_state (.GroundShockwave g)
        = CharacterAbilityType.ChargedRanged :=
  ⟨rfl, rfl⟩

/-- C5 counterexample: on a concrete loadout, `get_armor` yields eleven
entries, not nine. -/
theorem get_armor_not_nine :
    emptyLoadout.get_armor.length = 11
      ∧ emptyLoadout.get_armor.length ≠ 9 := by
  exact ⟨rfl, by decide⟩

/-- C5 (amended): `get_armor` returns the armor slots in a stable, fixed
order — shoulder, chest, belt, hand, pants, foot, back, ring, neck, head,
tabard — and the number of armor slots is eleven: the same `Loadout` always
yields the same sequence of exactly eleven `Option Item` entries, one per
armor slot. -/
theorem get_armor_fixed_eleven (l : Loadout) :
    l.get_armor
        = [l.shoulder, l.chest, l.belt, l.hand, l.pants, l.foot, l.back,
           l.ring, l.neck, l.head, l.tabard]
      ∧ l.get_armor.length = 11 :=
  ⟨rfl, rfl⟩

/-- C7 counterexample: compilation of a melee-strike entry succeeds, but the
resulting execution state carries no `StageSection` field at all (the
`basic_melee` data record has no such field), contradicting the claim that
every timed variant's state starts with `StageSection = Buildup`. -/
theorem compile_basic_melee_has_no_stage_field :
    (CharacterState.from_ability (.BasicMelee sampleBasicMelee)).map
      CharacterState.stage_field = some none := rfl

/-- C7 (amended): among the compiled execution states, exactly the dash
strike, spin strike, and multi-stage combo variants carry a `StageSection`
field, and compilation initializes it to `Buildup`; the melee strike,
ranged shot, charged ranged shot, leap strike, and ground shockwave states
— like the stateless block — have no stage field. -/
theorem compile_stage_field_buildup (a : CharacterAbility)
    (s : CharacterState) (h : CharacterState.from_ability a = some s) :
    s.stage_field
      = (if a.compiles_with_stage then some StageSection.Buildup
         else none) := by
  cases a <;> simp only [CharacterState.from_ability] at h <;> first
    | (cases h; rfl)
    | (split at h
       · cases h
       · cases h
         rfl)

/-- C7 witness: the block entry compiles to the block state, which has no
stage field. -/
theorem compile_stage_field_buildup_witness :
    CharacterState.stage_field .BasicBlock
      = (if CharacterAbility.compiles_with_stage .BasicBlock
         then some StageSection.Buildup else none) :=
  compile_stage_field_buildup .BasicBlock .BasicBlock rfl

/-- C8: resolving an item into an `ItemConfig` fills ability slots 1–5 with
the first five entries of the weapon's declared ability list in declared
order (missing entries become `none`), always sets the block slot to the
basic block ability and the dodge slot to the roll ability; for a non-weapon
item the resolution panics (`unimplemented!`, modelled by `none`) rather
than silently producing a config. -/
theorem item_config_resolution :
    (∀ (i : Item) (t : Tool), i.kind = ItemKind.Tool t →
      ItemConfig.from_item i = some {
        item := i
        ability1 := t.abilities.get? 0
        ability2 := t.abilities.get? 1
        ability3 := t.abilities.get? 2
        ability4 := t.abilities.get? 3
        ability5 := t.abilities.get? 4
        block_ability := some .BasicBlock
        dodge_ability := some .Roll })
    ∧ (∀ i : Item, (∀ t : Tool, i.kind ≠ ItemKind.Tool t) →
        ItemConfig.from_item i = none) := by
  constructor
  · intro i t h
    rcases i with ⟨k⟩
    cases h
    rfl
  · intro i h
    rcases i with ⟨k⟩
    cases k with
    | Tool t => exact absurd rfl (h t)
    | Armor p => rfl
    | Other n => rfl

/-- C8 witness: a one-ability weapon resolves with slot 1 filled and slots
2–5 empty, and an armor item does not resolve. -/
theorem item_config_resolution_witness :
    ItemConfig.from_item toolItem = some {
        item := toolItem
        ability1 := sampleTool.abilities.get? 0
        ability2 := sampleTool.abilities.get? 1
        ability3 := sampleTool.abilities.get? 2
        ability4 := sampleTool.abilities.get? 3
        ability5 := sampleTool.abilities.get? 4
        block_ability := some .BasicBlock
        dodge_ability := some .Roll }
      ∧ ItemConfig.from_item armorItem = none :=
  ⟨item_config_resolution.1 toolItem sampleTool rfl,
   item_config_resolution.2 armorItem (fun _t h => nomatch h)⟩

theorem optionSum_protection_map (ps : List Protection) :
    optionSum (ps.map Protection.normal_value)
      = (if ps.any Protection.is_invincible then none
         else some (ps.filterMap Protection.normal_value).sum) := by
  induction ps with
  | nil => simp [optionSum]
  | cons p ps ih =>
    cases p with
    | Normal v =>
      simp only [List.map_cons, Protection.normal_value, optionSum, ih,
        List.any_cons, Protection.is_invincible, Bool.false_or,
        List.filterMap_cons]
      by_cases h : ps.any Protection.is_invincible
      · simp [h]
      · simp [h]
    | Invincible =>
      simp [optionSum, Protection.normal_value, Protection.is_invincible]

/-- C4: for every `Loadout` slot assignment, `get_damage_reduction` returns
`1` if any equipped armor piece has invincible protection, and otherwise
`total_protection / (60 + |total_protection|)` where `total_protection`
sums the equipped armor pieces' normal protection values — and being a pure
function of the slot contents, it is deterministic with no cached state. -/
theorem get_damage_reduction_spec_eq (l : Loadout) :
    l.get_damage_reduction = l.damage_reduction_spec := by
  unfold Loadout.get_damage_reduction Loadout.damage_reduction_spec
  rw [optionSum_protection_map]
  by_cases h : ((l.get_armor.filterMap id).filterMap
      (fun item => item.kind.armorProtection)).any Protection.is_invincible
  · simp [h]
  · simp [h]
